import Mathlib

/-
Verification of the crawl orchestration engine of crawl4ai
(src/crawl4ai/async_webcrawler.py) against its design document.

The Python source is shallowly embedded below.  Pure helpers are Lean
functions; the external collaborators (fetcher, cache store, scraping
strategy, markdown generator, relevance oracle, extraction strategy)
are fields of explicit environment structures, with fallible ones
returning `Except String`; a raised Python exception is an
`Except.error` carrying the exception message.  Real (float) arithmetic
of the relevance filter is modelled over `ℚ`.
-/

namespace Crawl4ai

/-- Modelled from the spec: `sanitize_input_encode` is defined in utils.py,
which is not under src/.  The spec does not constrain it (it is an encoding
sanitizer); it is modelled as the identity encoding. -/
def sanitize_input_encode (s : String) : String := s

/-- Association-list update with Python-dict semantics: replace the value of
an existing key in place, otherwise append the new pair.  Used to model both
the `truncated_to_full` dict (aprocess_html, line 727) and the
`_domain_last_hit` ledger (line 130/897). -/
def setEntry {α : Type} : List (String × α) → String → α → List (String × α)
  | [], k, v => [(k, v)]
  | p :: ps, k, v => if p.1 = k then (k, v) :: ps else p :: setEntry ps k v

/-- Python-dict key lookup on the association-list model. -/
def lookupEntry {α : Type} (m : List (String × α)) (k : String) : Option α :=
  match m.find? (fun p => decide (p.1 = k)) with
  | some p => some p.2
  | none => none

/-- Python string slicing `section[:200]` (aprocess_html, lines 683 and 727):
the first 200 characters of a string. -/
def truncate200 (s : String) : String := String.mk (s.data.take 200)

/-- Modelled from the spec: the `CacheMode` enum lives in cache_context.py,
which is not under src/; §3 of the design fixes the value set. -/
inductive CacheMode where
  | ENABLED
  | DISABLED
  | BYPASS
  | READ_ONLY
  | WRITE_ONLY
  deriving Repr, DecidableEq

/-- Modelled from the spec: `CacheContext` lives in cache_context.py, which is
not under src/.  §3: per-request, immutable, built from the source identifier,
the effective mode, and the orchestrator-wide bypass flag. -/
structure CacheContext where
  url : String
  cache_mode : CacheMode
  always_bypass : Bool
  deriving Repr, DecidableEq

/-- Modelled from the spec: §4.1 table for `should_read` — globalBypass forces
false; ENABLED/READ_ONLY read, DISABLED/BYPASS/WRITE_ONLY do not. -/
def CacheContext.should_read (c : CacheContext) : Bool :=
  if c.always_bypass then false
  else
    match c.cache_mode with
    | .ENABLED => true
    | .DISABLED => false
    | .BYPASS => false
    | .READ_ONLY => true
    | .WRITE_ONLY => false

/-- Modelled from the spec: §4.1 table for `should_write` — globalBypass forces
false; ENABLED/BYPASS/WRITE_ONLY write, DISABLED/READ_ONLY do not. -/
def CacheContext.should_write (c : CacheContext) : Bool :=
  if c.always_bypass then false
  else
    match c.cache_mode with
    | .ENABLED => true
    | .DISABLED => false
    | .BYPASS => true
    | .READ_ONLY => false
    | .WRITE_ONLY => true

/-- Modelled from the spec: `_legacy_to_cache_mode` lives in cache_context.py,
which is not under src/.  §4.1: the legacy boolean combinations translate into
exactly one mode via a pure mapping. -/
def legacyToCacheMode (disable_cache bypass_cache no_cache_read no_cache_write : Bool) : CacheMode :=
  if disable_cache then .DISABLED
  else if bypass_cache then .BYPASS
  else if no_cache_read then .WRITE_ONLY
  else if no_cache_write then .READ_ONLY
  else .ENABLED

/-- Modelled from the spec: `MarkdownGenerationResult` lives in models.py,
which is not under src/.  §6: the markdown strategy returns a raw and a
"fit" markdown variant. -/
structure MarkdownGenerationResult where
  raw_markdown : String
  fit_markdown : String
  deriving Repr, DecidableEq, Inhabited

/-- Modelled from the spec: the markdown strategy interface (§6):
`generate(cleanedMarkup, baseIdentifier) -> {rawMarkdown, fitMarkdown}`. -/
structure MarkdownStrategy where
  generate : String → String → MarkdownGenerationResult

/-- Modelled from the spec: the chunking strategy interface (§6):
`chunk(text) -> sequence of chunk text`. -/
structure ChunkingStrategy where
  chunk : String → List String

/-- Modelled from the spec: `IdentityChunking` lives in chunking_strategy.py,
which is not under src/; §4.3 calls it "an identity (no-op) chunking". -/
def IdentityChunking : ChunkingStrategy := ⟨fun s => [s]⟩

/-- Modelled from the spec: `RegexChunking` (the default chunking strategy in
arun's legacy signature) lives in chunking_strategy.py, which is not under
src/; modelled as splitting the text on blank lines. -/
def RegexChunking : ChunkingStrategy := ⟨fun s => s.splitOn "\n\n"⟩

/-- Modelled from the spec: the extraction strategy interface (§6): it
declares its required input format, and `run(sourceIdentifier, chunks)`
produces a structured payload (here already a textual payload; the
json.dumps serialization is a separate environment function).  `is_noop`
models `isinstance(_, NoExtractionStrategy)`.  `run` returns
`Except String` because a raised extraction error propagates out of
`aprocess_html` uncaught (the try block there only wraps scraping). -/
structure ExtractionStrategy where
  input_format : String
  is_noop : Bool
  run : String → List String → Except String String

/-- Modelled from the spec: `CrawlerRunConfig` lives in async_configs.py,
which is not under src/; §3 (RunConfig) lists the per-crawl fields that
async_webcrawler.py reads.  Only the fields the orchestrator consumes are
modelled. -/
structure CrawlerRunConfig where
  cache_mode : Option CacheMode := none
  screenshot : Bool := false
  pdf : Bool := false
  extraction_strategy : Option ExtractionStrategy := none
  chunking_strategy : Option ChunkingStrategy := none
  markdown_generator : Option MarkdownStrategy := none
  prettiify : Bool := false
  verbose : Bool := true
  session_id : Option String := none

/-- The legacy keyword parameters of `arun` (lines 276-292) that the claims
exercise.  Note the Python defaults: `screenshot=False`, `pdf=False`,
`chunking_strategy=RegexChunking()`, `extraction_strategy=None`. -/
structure LegacyParams where
  screenshot : Bool := false
  pdf : Bool := false
  bypass_cache : Bool := false
  disable_cache : Bool := false
  no_cache_read : Bool := false
  no_cache_write : Bool := false
  extraction_strategy : Option ExtractionStrategy := none
  chunking_strategy : ChunkingStrategy := RegexChunking

/-- Modelled from the spec: `CrawlerRunConfig.from_kwargs` lives in
async_configs.py, which is not under src/; arun (lines 342-358) merges the
legacy parameters into a kwargs dict and builds the config from it. -/
def configFromLegacy (l : LegacyParams) (cache_mode : Option CacheMode) : CrawlerRunConfig :=
  { cache_mode := cache_mode
    screenshot := l.screenshot
    pdf := l.pdf
    extraction_strategy := l.extraction_strategy
    chunking_strategy := some l.chunking_strategy }

/-- Modelled from the spec: `CrawlResult` lives in models.py, which is not
under src/; §3 (CrawlResult) lists its fields.  Unset fields default to
empty/None as in the pydantic model. -/
structure CrawlResult where
  url : String := ""
  html : String := ""
  cleaned_html : String := ""
  markdown : String := ""
  fit_markdown : String := ""
  fit_html : String := ""
  media : List String := []
  links : List String := []
  metadata : List (String × String) := []
  screenshot : Option String := none
  pdf : Option String := none
  extracted_content : Option String := none
  success : Bool := false
  error_message : String := ""
  status_code : Option Nat := none
  response_headers : List (String × String) := []
  downloaded_files : List String := []
  ssl_certificate : Option String := none
  session_id : Option String := none
  deriving Repr, DecidableEq, Inhabited

/-- Modelled from the spec: `AsyncCrawlResponse` lives in
async_crawler_strategy.py, which is not under src/; §6 (Fetcher) lists what a
fetch returns. -/
structure AsyncCrawlResponse where
  html : String := ""
  screenshot : Option String := none
  pdf_data : Option String := none
  status_code : Option Nat := none
  response_headers : List (String × String) := []
  downloaded_files : List String := []
  ssl_certificate : Option String := none
  deriving Repr, DecidableEq, Inhabited

/-- The result of `WebScrapingStrategy.scrap` as consumed by aprocess_html
(lines 614-619). -/
structure ScrapResult where
  cleaned_html : String := ""
  fit_markdown : String := ""
  fit_html : String := ""
  media : List String := []
  links : List String := []
  metadata : List (String × String) := []
  deriving Repr, DecidableEq, Inhabited

/-- The external collaborators of the single-source pipeline
(aprocess_html).  `scrap` returns `Except` (a raised scraping error) of
`Option` (Python None result); `default_markdown` is the
`DefaultMarkdownGenerator` used when no generator is configured;
`rerank_score q d` is the relevance oracle's score of document `d` against
query `q`; `json_dumps` is the serialization of the extraction payload;
`format_html` is the pretty-printer used when `config.prettiify` is set. -/
structure PipelineEnv where
  scrap : String → String → Except String (Option ScrapResult)
  default_markdown : String → String → MarkdownGenerationResult
  rerank_score : String → String → ℚ
  json_dumps : String → String
  format_html : String → String

/-- One scored document as returned by `CrossEncoder.rank(..., top_k=len,
return_documents=True)` and re-sorted by `corpus_id` (lines 690-708): after
the sort the i-th item carries index i, the oracle score, and the i-th
document text. -/
structure RankItem where
  corpus_id : Nat
  score : ℚ
  text : String

/-- Pair each list element with its index, starting at `n`. -/
def withIdx {α : Type} : Nat → List α → List (Nat × α)
  | _, [] => []
  | n, a :: as => (n, a) :: withIdx (n + 1) as

/-- The reranker output sorted by corpus id (lines 690-708): document i of
`docs` scored against `q` by the oracle `sc`. -/
def rankAll (sc : String → String → ℚ) (q : String) (docs : List String) : List RankItem :=
  (withIdx 0 docs).map (fun p => ⟨p.1, sc q p.2, p.2⟩)

/-- Ascending insertion of a value into a sorted list. -/
def insertSorted (x : ℚ) : List ℚ → List ℚ
  | [] => [x]
  | y :: ys => if x ≤ y then x :: y :: ys else y :: insertSorted x ys

/-- The ascending sort `np.percentile` performs internally (insertion
sort; any correct sort gives the same sorted sequence). -/
def sortAsc (l : List ℚ) : List ℚ := l.foldr insertSorted []

/-- `np.percentile(xs, 90)` (line 709) with numpy's default linear
interpolation, over ℚ: at fractional position 9(n-1)/10 of the ascending
sort. -/
def percentile90 (xs : List ℚ) : ℚ :=
  let s := sortAsc xs
  let n := s.length
  let pos : ℚ := 9 * ((n : ℚ) - 1) / 10
  let lo : Nat := (Int.floor pos).toNat
  let hi : Nat := (Int.ceil pos).toNat
  let lov := s.getD lo 0
  let hiv := s.getD hi 0
  lov + (pos - (lo : ℚ)) * (hiv - lov)

/-- The dict `{section[:200]: section for section in sections}` (line 727):
later sections overwrite earlier ones sharing the same 200-character key. -/
def truncatedToFull (sections : List String) : List (String × String) :=
  sections.foldl (fun m s => setEntry m (truncate200 s) s) []

/-- The relevance-filtering block of aprocess_html (lines 682-731): truncate
each chunk to 200 characters, score the truncated chunks against the query
and against the literal term "date", keep an item iff its query score
strictly exceeds the 90th percentile of the query scores or its date score
exceeds 0.1, and map each survivor's truncated text back to a full chunk
through the `truncated_to_full` dict. -/
def relevanceFilter (sc : String → String → ℚ) (q : String) (sections : List String) : List String :=
  let truncated_sections := sections.map truncate200
  let reranked := rankAll sc q truncated_sections
  let date_reranked := rankAll sc "date" truncated_sections
  let rerank_threshold := percentile90 (reranked.map (fun r => r.score))
  let filtered_results := (reranked.zip date_reranked).filter
    (fun p => decide (rerank_threshold < p.1.score) || decide ((1 : ℚ)/10 < p.2.score))
  let truncated_to_full := truncatedToFull sections
  filtered_results.map (fun p => (lookupEntry truncated_to_full p.1.text).getD "")

/-- Claim-side restatement of the filter criterion: the truncated chunks
whose query score strictly exceeds the 90th percentile of all query scores
or whose date score exceeds 0.1. -/
def keptTruncations (sc : String → String → ℚ) (q : String) (sections : List String) : List String :=
  let truncated := sections.map truncate200
  let thr := percentile90 (truncated.map (fun t => sc q t))
  truncated.filter (fun t => decide (thr < sc q t ∨ (1 : ℚ)/10 < sc "date" t))

/-- The input-format fallback (lines 660-667): `fit_markdown` demanded but
unavailable falls back (with a warning) to "markdown". -/
def effectiveContentFormat (input_format fit_markdown_value : String) : String :=
  if input_format = "fit_markdown" ∧ fit_markdown_value = "" then "markdown" else input_format

/-- The content-selection dict (lines 669-673): note the source maps the
"fit_markdown" key to `markdown_result.raw_markdown`. -/
def selectContent (fmt markdown html raw_markdown : String) : String :=
  (lookupEntry [("markdown", markdown), ("html", html), ("fit_markdown", raw_markdown)] fmt).getD markdown

/-- Chunking of the selected content (lines 675-681): IdentityChunking is
forced for the "html" format, otherwise the configured strategy is used. -/
def extractionSections (cs : ChunkingStrategy) (fmt markdown html raw_markdown : String) : List String :=
  (if fmt = "html" then IdentityChunking else cs).chunk (selectContent fmt markdown html raw_markdown)

/-- The markdown generator selection (lines 622-636): the configured
generator, or the default one. -/
def markdownResultOf (env : PipelineEnv) (config : CrawlerRunConfig) (cleaned_html url : String) :
    MarkdownGenerationResult :=
  match config.markdown_generator with
  | some g => g.generate cleaned_html url
  | none => env.default_markdown cleaned_html url

/-- The structured-extraction block of aprocess_html (lines 649-746):
runs only when no cached extracted content was supplied, both an
extraction and a chunking strategy are configured, and the extraction
strategy is not the no-op one.  Resolve the input format (with the
fit-markdown fallback), select and chunk the content, optionally run the
relevance filter (with a query, an empty chunk list makes
`np.percentile` of an empty score list raise, modelled as an error), and
either return the empty string (zero surviving chunks, strategy not
invoked) or run the strategy and serialize its payload.  A raised
extraction error propagates (the try block of lines 577-611 only wraps
scraping). -/
def extractedContentOf (env : PipelineEnv) (url html : String) (extracted_content : Option String)
    (config : CrawlerRunConfig) (markdown : String) (markdown_result : MarkdownGenerationResult)
    (query : Option String) : Except String (Option String) :=
  match extracted_content, config.extraction_strategy, config.chunking_strategy with
  | none, some es, some cs =>
    if es.is_noop then .ok none
    else
      let content_format := effectiveContentFormat es.input_format markdown_result.fit_markdown
      let sections0 := extractionSections cs content_format markdown html markdown_result.raw_markdown
      let sectionsE : Except String (List String) :=
        match query with
        | some q =>
          if sections0 = [] then .error "attempt to get argmax of an empty sequence"
          else .ok (relevanceFilter env.rerank_score q sections0)
        | none => .ok sections0
      match sectionsE with
      | .error e => .error e
      | .ok sections =>
        if sections = [] then .ok (some "")
        else
          match es.run url sections with
          | .error e => .error e
          | .ok payload => .ok (some (env.json_dumps payload))
  | ec, _, _ => .ok ec

/-- The result record assembled by aprocess_html (lines 748-773): empty
screenshot/PDF strings become None, the cleaned markup is pretty-printed
when requested, the success flag is set and the error message empty. -/
def assembleResult (env : PipelineEnv) (config : CrawlerRunConfig) (url html : String)
    (result : ScrapResult) (markdown_result : MarkdownGenerationResult)
    (screenshot pdf_data : Option String) (extracted : Option String) : CrawlResult :=
  let cleaned_html := sanitize_input_encode result.cleaned_html
  let screenshot_data := match screenshot with
    | some s => if s = "" then none else some s
    | none => none
  let pdf_out := match pdf_data with
    | some s => if s = "" then none else some s
    | none => none
  let cleaned_out := if config.prettiify then env.format_html cleaned_html else cleaned_html
  { url := url, html := html, cleaned_html := cleaned_out,
    markdown := sanitize_input_encode markdown_result.raw_markdown,
    fit_markdown := sanitize_input_encode result.fit_markdown,
    fit_html := sanitize_input_encode result.fit_html,
    media := result.media, links := result.links, metadata := result.metadata,
    screenshot := screenshot_data, pdf := pdf_out,
    extracted_content := extracted, success := true, error_message := "" }

/-- The single-source content pipeline `AsyncWebCrawler.aprocess_html`
(lines 549-773).  The try block (lines 577-611) only wraps the scraping
call: a None scrap result or a raised scraping error becomes a raised
ValueError; everything after (markdown generation, chunking, relevance
filtering, extraction) runs outside it, so errors there propagate as-is
(to be caught by arun's handler).  The logging, the
`verbose`/`is_raw_html` display parameters, and the `markdown_v2` alias
of the markdown result are not modelled. -/
def aprocess_html (env : PipelineEnv) (url html : String) (extracted_content : Option String)
    (config : CrawlerRunConfig) (screenshot pdf_data : Option String) (query : Option String) :
    Except String CrawlResult :=
  match env.scrap url html with
  | .error e => .error ("Process HTML, Failed to extract content from the website: " ++ url ++ ", error: " ++ e)
  | .ok none => .error ("Process HTML, Failed to extract content from the website: " ++ url)
  | .ok (some result) =>
    let markdown_result := markdownResultOf env config (sanitize_input_encode result.cleaned_html) url
    let markdown := sanitize_input_encode markdown_result.raw_markdown
    (extractedContentOf env url html extracted_content config markdown markdown_result query).map
      (assembleResult env config url html result markdown_result screenshot pdf_data)

/-- The external collaborators of the orchestrator: the content pipeline's
environment, the instance's `always_bypass_cache` flag, the cache store
read (`async_db_manager.aget_cached_url`), and the fetcher
(`crawler_strategy.crawl`). -/
structure ArunEnv where
  pipeline : PipelineEnv
  always_bypass_cache : Bool
  cache_get : String → Except String (Option CrawlResult)
  fetch : String → Except String AsyncCrawlResponse

/-- The observable outcome of one `arun` call: the returned result, the
entry written back to the cache store (`async_db_manager.acache_url`,
line 507), if any, and whether the fetcher was invoked. -/
structure ArunOutcome where
  result : CrawlResult
  written : Option CrawlResult
  fetched : Bool
  deriving Repr, DecidableEq, Inhabited

/-- The ValueError raised at line 325 for a non-non-empty-string url. -/
def invalidUrlMsg : String := "Invalid URL, make sure the URL is a non-empty string"

/-- The diagnostic message assembled by arun's exception handler
(lines 527-535); the line/function/code context from `get_error_context`
is summarized by the fixed English frame around the underlying error. -/
def handlerMessage (e : String) : String :=
  "Unexpected error in _crawl_web: Error: " ++ e

/-- The failure result built by arun's exception handler (lines 545-547). -/
def handlerResult (url e_msg : String) : CrawlResult :=
  { url := url, html := "", success := false, error_message := e_msg }

/-- The config normalization of arun (lines 330-381): take the provided
config or build one from the legacy keyword parameters; translate legacy
cache booleans into a cache mode when none was given; default the cache
mode to ENABLED. -/
def normalizeConfig (config0 : Option CrawlerRunConfig) (legacy : LegacyParams)
    (cache_mode : Option CacheMode) : CrawlerRunConfig :=
  let config := match config0 with
    | some c => c
    | none => configFromLegacy legacy cache_mode
  let config :=
    if (legacy.bypass_cache || legacy.disable_cache || legacy.no_cache_read || legacy.no_cache_write)
        && config.cache_mode.isNone then
      { config with cache_mode := some (legacyToCacheMode legacy.disable_cache legacy.bypass_cache
          legacy.no_cache_read legacy.no_cache_write) }
    else config
  if config.cache_mode.isNone then { config with cache_mode := some CacheMode.ENABLED } else config

/-- The cached extracted-content normalization (lines 402-409): empty or
"[]" becomes None. -/
def cachedExtracted (cr : CrawlResult) : Option String :=
  let ec := sanitize_input_encode (cr.extracted_content.getD "")
  if ec = "" ∨ ec = "[]" then none else some ec

/-- The fresh-fetch branch of arun (lines 423-509): fetch, process the html,
stamp the transport fields and `success = bool(html)` (line 488), and write
back iff `should_write` and the `cached_result` variable is falsy
(line 506).  `cachedFlag` is the truthiness of `cached_result` at that
point. -/
def freshPath (env : ArunEnv) (url : String) (config : CrawlerRunConfig) (cc : CacheContext)
    (extracted : Option String) (cachedFlag : Bool) (query : Option String) :
    Except String ArunOutcome :=
  match env.fetch url with
  | .error e => .error e
  | .ok resp =>
    let html := sanitize_input_encode resp.html
    match aprocess_html env.pipeline url html extracted config resp.screenshot resp.pdf_data query with
    | .error e => .error e
    | .ok cr0 =>
      let cr := { cr0 with
        status_code := resp.status_code
        response_headers := resp.response_headers
        downloaded_files := resp.downloaded_files
        ssl_certificate := resp.ssl_certificate
        success := decide (html ≠ "")
        session_id := config.session_id }
      let written := if cc.should_write && !cachedFlag then some cr else none
      .ok { result := cr, written := written, fetched := true }

/-- The body of arun's try block (lines 328-525): read the cache when
appropriate; a found entry is kept unless the screenshot/PDF check
(line 413) nulls it — note the source tests the legacy parameter variables
`screenshot`/`pdf`, not the cached data, with Python precedence
`(config.screenshot and not screenshot) or (config.pdf and not pdf)`.
A kept entry with markup is served (lines 511-525, stamping
`success = bool(html)` and the session id); otherwise the fresh branch
runs, reusing the cached extracted content. -/
def arunAttempt (env : ArunEnv) (url : String) (config : CrawlerRunConfig) (cc : CacheContext)
    (legacy : LegacyParams) (query : Option String) : Except String ArunOutcome :=
  match (if cc.should_read then env.cache_get url else .ok none) with
  | .error e => .error e
  | .ok none => freshPath env url config cc none false query
  | .ok (some cr) =>
    let html := sanitize_input_encode cr.html
    let extracted := cachedExtracted cr
    let invalid := (config.screenshot && !legacy.screenshot) || (config.pdf && !legacy.pdf)
    if invalid = false ∧ html ≠ "" then
      .ok { result := { cr with success := decide (html ≠ ""), session_id := config.session_id }
            written := none, fetched := false }
    else
      freshPath env url config cc extracted (!invalid) query

/-- `AsyncWebCrawler.arun` (lines 271-547).  A non-non-empty-string url
raises the ValueError of line 325 before any work (in the typed embedding
only the empty string inhabits that case).  Everything else runs inside the
try block; any raised error is converted by the handler (lines 527-547)
into a success=false CrawlResult carrying the diagnostic message — the call
itself never fails.  The optional asyncio lock, the user-agent override,
and all logging are not modelled. -/
def arun (env : ArunEnv) (url : String) (config0 : Option CrawlerRunConfig)
    (legacy : LegacyParams) (cache_mode : Option CacheMode) (query : Option String) :
    Except String ArunOutcome :=
  if url = "" then .error invalidUrlMsg
  else
    let config := normalizeConfig config0 legacy cache_mode
    let cc : CacheContext :=
      { url := url, cache_mode := config.cache_mode.getD CacheMode.ENABLED
        always_bypass := env.always_bypass_cache }
    match arunAttempt env url config cc legacy query with
    | .ok out => .ok out
    | .error e => .ok { result := handlerResult url (handlerMessage e), written := none, fetched := false }

/-- One element of the list returned by `arun_many` (lines 928-931): the
per-source CrawlResult, or — when the gathered task raised — the string of
the exception (`str(result)`), an explicit failure marker. -/
inductive BatchItem where
  | result (r : CrawlResult)
  | marker (e : String)
  deriving Repr, DecidableEq

/-- The work done for one source inside `arun_many` (lines 875-905 and
928-931): run `arun` and wrap its outcome; an exception raised by the task
is captured by `asyncio.gather(..., return_exceptions=True)` and stringified
into a marker.  Note: line 900-905 passes the batch config under the
keyword `crawler_config`, which `arun`'s signature does not declare, so it
lands in `**kwargs` and each call builds its effective config from the
declared defaults — hence `arun` is invoked here with no config object and
default legacy parameters. -/
def batchItemFor (env : ArunEnv) (query : Option String) (u : String) : BatchItem :=
  match arun env u none {} none query with
  | .ok o => .result o.result
  | .error e => .marker e

/-- `AsyncWebCrawler.arun_many` (lines 775-931).  `asyncio.gather` returns
the gathered values in task-creation order — the order of `urls` —
independent of completion order, with `return_exceptions=True` capturing
per-task faults in place; the cooperative scheduling (semaphore bound,
per-origin delays) affects timing only, not the collected values, so the
batch is modelled as the order-preserving map of the per-source outcome.
The rate-limiting side effects are modelled separately below. -/
def arun_many (env : ArunEnv) (urls : List String) (query : Option String) : List BatchItem :=
  urls.map (batchItemFor env query)

/-- The per-origin delay decision of `crawl_with_semaphore` (lines 891-895):
if the ledger holds a timestamp for the domain and less than `mean_delay`
has elapsed since it, sleep `mean_delay + uniform(0, max_range)`; `jitter`
is the sampled uniform value (0 ≤ jitter ≤ max_range). -/
def rateDelay (last : Option ℚ) (current_time mean_delay jitter : ℚ) : ℚ :=
  match last with
  | some t => if current_time - t < mean_delay then mean_delay + jitter else 0
  | none => 0

/-- One completed ledger write of a rate-limited task: `wtime` is the time
the write lands (the task's start time plus its sleep, since line 897 runs
after the sleep of line 895), and `value` is the value written — the
`current_time` captured at task start (line 878), not the dispatch time. -/
structure RLEvent where
  wtime : ℚ
  value : ℚ
  deriving Repr, DecidableEq

/-- One same-origin task of a batch: its start time (when its pre-sleep
block runs and `time.time()` is captured) and its sampled jitter. -/
structure RLTaskSpec where
  start : ℚ
  jitter : ℚ
  deriving Repr, DecidableEq

/-- The ledger value a task reads at time `t`: the value of the
latest-landed write with `wtime ≤ t` (later writes overwrite earlier ones
in the shared dict), or none if no write has landed yet. -/
def visibleValue (events : List RLEvent) (t : ℚ) : Option ℚ :=
  let vis := events.filter (fun e => decide (e.wtime ≤ t))
  match vis.foldl (fun acc e =>
      match acc with
      | none => some e
      | some b => if b.wtime ≤ e.wtime then some e else some b) none with
  | some e => some e.value
  | none => none

/-- One task's execution under the cooperative schedule (lines 875-899):
read the ledger at the start time, compute the delay, land the write of the
captured start time at start + delay, and dispatch the fetch right after
the write. -/
def rlStep (mean_delay : ℚ) (st : List RLEvent × List ℚ) (tk : RLTaskSpec) :
    List RLEvent × List ℚ :=
  let last := visibleValue st.1 tk.start
  let d := rateDelay last tk.start mean_delay tk.jitter
  (st.1 ++ [⟨tk.start + d, tk.start⟩], st.2 ++ [tk.start + d])

/-- A batch of same-origin tasks processed in start order under asyncio's
cooperative scheduling (each pre-sleep block of lines 877-894 is atomic —
it contains no await — and the write of line 897 lands after the sleep):
returns the ledger-write events and, second, the dispatch times. -/
def runRateLimiterState (mean_delay : ℚ) (tasks : List RLTaskSpec) :
    List RLEvent × List ℚ :=
  tasks.foldl (rlStep mean_delay) ([], [])

/-- The dispatch times of a same-origin batch. -/
def runRateLimiter (mean_delay : ℚ) (tasks : List RLTaskSpec) : List ℚ :=
  (runRateLimiterState mean_delay tasks).2

/-- The class-level state of `AsyncWebCrawler`: line 130 declares
`_domain_last_hit = {}` on the class body, so the ledger belongs to the
class object, created empty once at class-definition time. -/
structure CrawlerClassState where
  domain_last_hit : List (String × ℚ)
  deriving Repr, DecidableEq

/-- The ledger as it exists when the class is defined. -/
def initialClassState : CrawlerClassState := ⟨[]⟩

/-- The per-instance attributes set by `__init__` (lines 132-218) that the
claims touch.  `__init__` never assigns `self._domain_last_hit`, so an
instance carries no ledger of its own. -/
structure AsyncWebCrawlerInst where
  always_bypass_cache : Bool
  thread_safe : Bool
  deriving Repr, DecidableEq

/-- `AsyncWebCrawler.__init__` (lines 132-218), restricted to the modelled
attributes; note it does not touch the class-level ledger. -/
def initCrawler (always_bypass thread_safe : Bool) : AsyncWebCrawlerInst :=
  { always_bypass_cache := always_bypass, thread_safe := thread_safe }

/-- The ledger an instance observes: Python attribute lookup on
`self._domain_last_hit` finds the class attribute (no instance attribute
shadows it), so every instance observes the one class-level dict. -/
def observedLedger (cs : CrawlerClassState) (_inst : AsyncWebCrawlerInst) : List (String × ℚ) :=
  cs.domain_last_hit

/-- `self._domain_last_hit[domain] = current_time` (line 897), performed by
a worker of some instance: updates the shared class-level dict in place. -/
def recordHit (cs : CrawlerClassState) (_inst : AsyncWebCrawlerInst) (domain : String) (t : ℚ) :
    CrawlerClassState :=
  ⟨setEntry cs.domain_last_hit domain t⟩

/-- First-of-two options, used to state the dict-build characterization. -/
def orDefault {α : Type} (a b : Option α) : Option α :=
  match a with
  | some x => some x
  | none => b

/-- The chunk list the extraction block of aprocess_html feeds to the
(optional) relevance filter, as a function of the pipeline inputs: the
scraped cleaned markup is sanitized, markdown is generated, the content
format is resolved with the fit-markdown fallback, the content is selected
and chunked. -/
def pipelineSections (env : PipelineEnv) (cfg : CrawlerRunConfig) (url html : String)
    (es : ExtractionStrategy) (cs : ChunkingStrategy) (sr : ScrapResult) : List String :=
  let cleaned_html := sanitize_input_encode sr.cleaned_html
  let markdown_result := markdownResultOf env cfg cleaned_html url
  let markdown := sanitize_input_encode markdown_result.raw_markdown
  let content_format := effectiveContentFormat es.input_format markdown_result.fit_markdown
  extractionSections cs content_format markdown html markdown_result.raw_markdown

/-- A pipeline environment whose collaborators all succeed trivially; the
concrete scenarios below override the fields they exercise. -/
def trivialPipeline : PipelineEnv :=
  { scrap := fun _ _ => .ok (some {})
    default_markdown := fun _ _ => { raw_markdown := "", fit_markdown := "" }
    rerank_score := fun _ _ => 0
    json_dumps := fun s => s
    format_html := fun s => s }

/-- Scenario for C1: the cache has no entry and the fetcher raises. -/
def envC1 : ArunEnv :=
  { pipeline := trivialPipeline
    always_bypass_cache := false
    cache_get := fun _ => .ok none
    fetch := fun _ => .error "netfail" }

/-- Scenario for C1's witness: the transform (scraping) stage raises while
the fetch succeeds. -/
def envC1t : ArunEnv :=
  { pipeline := { trivialPipeline with scrap := fun _ _ => .error "boom" }
    always_bypass_cache := false
    cache_get := fun _ => .ok none
    fetch := fun _ => .ok { html := "<p>x</p>" } }

/-- Scenario for C1's witness: an extraction strategy whose run raises. -/
def esC1e : ExtractionStrategy :=
  { input_format := "markdown", is_noop := false
    run := fun _ _ => .error "exboom" }

/-- Scenario for C1's witness: extraction configured with the raising
strategy. -/
def cfgC1e : CrawlerRunConfig :=
  { cache_mode := some CacheMode.ENABLED
    extraction_strategy := some esC1e
    chunking_strategy := some ⟨fun s => [s]⟩ }

/-- Scenario for C1's witness: fetch and scraping succeed, so the raised
extraction error is what reaches arun's handler. -/
def envC1e : ArunEnv :=
  { pipeline := { trivialPipeline with
      default_markdown := fun _ _ => { raw_markdown := "md", fit_markdown := "" } }
    always_bypass_cache := false
    cache_get := fun _ => .ok none
    fetch := fun _ => .ok { html := "<p>x</p>" } }

/-- Scenario for C2: a stored entry with markup but no screenshot bytes. -/
def cachedC2 : CrawlResult :=
  { url := "https://a", html := "<p>x</p>", success := true }

/-- Scenario for C2: the store returns the screenshot-less entry; a fetch,
were one to happen, would be observable as an error outcome. -/
def envC2 : ArunEnv :=
  { pipeline := trivialPipeline
    always_bypass_cache := false
    cache_get := fun _ => .ok (some cachedC2)
    fetch := fun _ => .error "fetch happened" }

/-- Scenario for C2: the legacy call `arun(url, screenshot=True)`. -/
def legacyC2 : LegacyParams := { screenshot := true }

/-- Scenario for C3: a stored entry that lacks markup. -/
def cachedC3 : CrawlResult := { url := "https://a", html := "" }

/-- Scenario for C3: the fresh fetch that replaces the stale entry. -/
def respC3 : AsyncCrawlResponse := { html := "<p>hi</p>" }

/-- Scenario for C3: cache read yields the markup-less entry, fetch works. -/
def envC3 : ArunEnv :=
  { pipeline := trivialPipeline
    always_bypass_cache := false
    cache_get := fun _ => .ok (some cachedC3)
    fetch := fun _ => .ok respC3 }

/-- Scenario for C3: caching fully enabled, so should_write is true. -/
def cfgC3 : CrawlerRunConfig := { cache_mode := some CacheMode.ENABLED }

/-- The pipeline result of the C3 scenario's fresh path, named so the
witness can discharge the amended theorem's hypotheses at it. -/
def presC3 : CrawlResult :=
  match aprocess_html envC3.pipeline "https://a" (sanitize_input_encode respC3.html)
      (cachedExtracted cachedC3) cfgC3 respC3.screenshot respC3.pdf_data none with
  | .ok r => r
  | .error _ => default

/-- Scenario for C4's witness: an oracle scoring every chunk 1/2 against any
query and 0 against "date", so no chunk beats the 90th percentile (1/2) and
none passes the date threshold. -/
def scC4 : String → String → ℚ := fun q _ => if q = "date" then 0 else 1/2

/-- Scenario for C4's witness: an extraction strategy whose run would fail
loudly — the theorem shows it is never invoked when zero chunks survive. -/
def esC4 : ExtractionStrategy :=
  { input_format := "markdown", is_noop := false
    run := fun _ _ => .error "extraction must not be invoked" }

/-- Scenario for C4's witness: a chunker yielding one chunk; with a single
chunk the 90th percentile of the query scores is that chunk's own score,
which it cannot strictly exceed. -/
def csC4 : ChunkingStrategy := ⟨fun _ => ["alpha"]⟩

/-- Scenario for C4's witness. -/
def pipeC4 : PipelineEnv :=
  { trivialPipeline with
    rerank_score := scC4
    default_markdown := fun _ _ => { raw_markdown := "md", fit_markdown := "" } }

/-- Scenario for C4's witness. -/
def cfgC4 : CrawlerRunConfig :=
  { extraction_strategy := some esC4, chunking_strategy := some csC4 }

/-- Scenario for C5: a strategy demanding `fit_markdown` input; its run
reports the exact text it received. -/
def esC5 : ExtractionStrategy :=
  { input_format := "fit_markdown", is_noop := false
    run := fun _ secs => .ok (String.intercalate "|" secs) }

/-- Scenario for C5: the markdown generator produces distinct raw and fit
variants, the fit one non-empty (available). -/
def pipeC5 : PipelineEnv :=
  { trivialPipeline with
    scrap := fun _ _ => .ok (some { cleaned_html := "C" })
    default_markdown := fun _ _ => { raw_markdown := "RAWMD", fit_markdown := "FITMD" } }

/-- Scenario for C5. -/
def cfgC5 : CrawlerRunConfig :=
  { extraction_strategy := some esC5, chunking_strategy := some ⟨fun s => [s]⟩ }

/-- Scenario for C6's witness. -/
def resp6 : AsyncCrawlResponse := { html := "<p>ok</p>" }

/-- Scenario for C6's witness: an environment where every fetch succeeds;
the middle url of `urls6` is invalid and its task raises. -/
def env6 : ArunEnv :=
  { pipeline := trivialPipeline
    always_bypass_cache := false
    cache_get := fun _ => .ok none
    fetch := fun _ => .ok resp6 }

/-- Scenario for C6's witness: the second source identifier is invalid. -/
def urls6 : List String := ["https://a", "", "https://b"]

/-- Scenario for C7: three same-origin tasks of one batch, started
back-to-back (asyncio runs their pre-sleep blocks in creation order within
a few milliseconds), with zero jitter (max_range = 0). -/
def cxTasks : List RLTaskSpec := [⟨0, 0⟩, ⟨1/100, 0⟩, ⟨2/100, 0⟩]

/-- Scenario for C8: the fetcher succeeds but returns empty markup. -/
def envC8 : ArunEnv :=
  { pipeline := trivialPipeline
    always_bypass_cache := false
    cache_get := fun _ => .ok none
    fetch := fun _ => .ok { html := "" } }

/-- Scenario for C8: cache bypassed, so the fresh path runs. -/
def cfgC8 : CrawlerRunConfig := { cache_mode := some CacheMode.BYPASS }

/-- The outcome of the C8 scenario, named so the witness can discharge the
hypotheses of the amended theorem at it. -/
def outC8 : ArunOutcome :=
  match arun envC8 "https://a" (some cfgC8) {} none none with
  | .ok o => o
  | .error _ => default

/-- Scenario for C10: a 200-character key shared by two distinct chunks. -/
def longKey : List Char := List.replicate 200 'a'

/-- Scenario for C10: first chunk, 201 characters. -/
def sA : String := String.mk (longKey ++ ['X'])

/-- Scenario for C10: second chunk, same first 200 characters as `sA`. -/
def sB : String := String.mk (longKey ++ ['Y'])

/-- Scenario for C10: an oracle scoring everything 1, so every chunk passes
the date threshold and survives the filter. -/
def scC10 : String → String → ℚ := fun _ _ => 1

/-- Lookup on the empty dict. -/
theorem lookupEntry_nil {α : Type} (k : String) : lookupEntry ([] : List (String × α)) k = none := rfl

/-- Lookup steps through a cons cell. -/
theorem lookupEntry_cons {α : Type} (p : String × α) (ps : List (String × α)) (k : String) :
    lookupEntry (p :: ps) k = if p.1 = k then some p.2 else lookupEntry ps k := by
  by_cases h : p.1 = k <;> simp [lookupEntry, List.find?_cons, h]

/-- Updating a key makes it the looked-up value. -/
theorem lookupEntry_setEntry_self {α : Type} (m : List (String × α)) (k : String) (v : α) :
    lookupEntry (setEntry m k v) k = some v := by
  induction m with
  | nil => simp [setEntry, lookupEntry_cons]
  | cons p ps ih =>
    by_cases h : p.1 = k
    · simp [setEntry, h, lookupEntry_cons]
    · simp [setEntry, h, lookupEntry_cons, ih]

/-- Updating one key leaves every other key's lookup unchanged. -/
theorem lookupEntry_setEntry_ne {α : Type} (m : List (String × α)) (k : String) (v : α)
    (k' : String) (h : k' ≠ k) : lookupEntry (setEntry m k v) k' = lookupEntry m k' := by
  induction m with
  | nil => simp [setEntry, lookupEntry_cons, lookupEntry_nil, Ne.symm h]
  | cons p ps ih =>
    by_cases hp : p.1 = k
    · simp [setEntry, hp, lookupEntry_cons, Ne.symm h]
    · simp [setEntry, hp, lookupEntry_cons, ih]

/-- The keys present after an update: the updated key plus the old keys. -/
theorem mem_keys_setEntry {α : Type} (m : List (String × α)) (k : String) (v : α) (x : String) :
    x ∈ (setEntry m k v).map Prod.fst ↔ x = k ∨ x ∈ m.map Prod.fst := by
  induction m with
  | nil => simp [setEntry]
  | cons p ps ih =>
    by_cases hp : p.1 = k <;> (simp [setEntry, hp, ih]; try tauto)

/-- A dict update preserves key uniqueness. -/
theorem keys_setEntry_nodup {α : Type} (m : List (String × α)) (k : String) (v : α)
    (h : (m.map Prod.fst).Nodup) : ((setEntry m k v).map Prod.fst).Nodup := by
  induction m with
  | nil => simp [setEntry]
  | cons p ps ih =>
    by_cases hp : p.1 = k
    · simpa [setEntry, hp] using h
    · simp only [List.map_cons, List.nodup_cons] at h
      simp only [setEntry, hp, if_false, List.map_cons, List.nodup_cons]
      exact ⟨fun hmem => ((mem_keys_setEntry ps k v p.1).mp hmem).elim hp h.1, ih h.2⟩

/-- Find over an append takes the first hit. -/
theorem find?_append_or {α : Type} (l1 l2 : List α) (p : α → Bool) :
    (l1 ++ l2).find? p = orDefault (l1.find? p) (l2.find? p) := by
  induction l1 with
  | nil => simp [orDefault]
  | cons a as ih => by_cases h : p a <;> simp [List.find?_cons, h, ih, orDefault]

/-- Building the truncation dict over `sections` on top of any dict `m`:
lookups prefer the last section whose truncation matches, falling back to
`m`. -/
theorem lookup_foldl_setEntry (sections : List String) (m : List (String × String)) (k : String) :
    lookupEntry (sections.foldl (fun acc s => setEntry acc (truncate200 s) s) m) k =
      orDefault (sections.reverse.find? (fun s => decide (truncate200 s = k))) (lookupEntry m k) := by
  induction sections generalizing m with
  | nil => simp [orDefault]
  | cons a as ih =>
    rw [List.foldl_cons, ih, List.reverse_cons, find?_append_or]
    cases hfa : as.reverse.find? (fun s => decide (truncate200 s = k)) with
    | some s => simp [orDefault]
    | none =>
      simp only [orDefault, List.find?_cons, List.find?_nil]
      by_cases hk : truncate200 a = k
      · subst hk; simp [lookupEntry_setEntry_self]
      · simp [hk, lookupEntry_setEntry_ne m (truncate200 a) a k (Ne.symm hk)]

/-- The truncation dict maps a key to the last section whose first 200
characters equal it. -/
theorem truncatedToFull_lookup (sections : List String) (k : String) :
    lookupEntry (truncatedToFull sections) k =
      sections.reverse.find? (fun s => decide (truncate200 s = k)) := by
  rw [truncatedToFull, lookup_foldl_setEntry, lookupEntry_nil]
  cases sections.reverse.find? (fun s => decide (truncate200 s = k)) <;> rfl

/-- Mapping a function of the element over an indexed list forgets the
indices. -/
theorem withIdx_map_snd_f {α β : Type} (f : α → β) (l : List α) :
    ∀ n, (withIdx n l).map (fun p => f p.2) = l.map f := by
  induction l with
  | nil => intro n; rfl
  | cons a as ih => intro n; simp [withIdx, ih]

/-- The query-score list the percentile is taken over is the oracle applied
to each document. -/
theorem rankAll_scores (sc : String → String → ℚ) (q : String) (docs : List String) :
    (rankAll sc q docs).map (fun r => r.score) = docs.map (fun t => sc q t) := by
  rw [rankAll, List.map_map]
  exact withIdx_map_snd_f _ docs 0

/-- The zip-filter-map combination of the relevance filter (zipping the two
score-aligned rank lists, filtering on the scores, mapping back through the
lookup) equals a plain filter of the documents by the score predicate. -/
theorem filter_zip_rank_aux (sc : String → String → ℚ) (q : String) (thr c : ℚ)
    (t2f : List (String × String)) (T : List String) : ∀ n : Nat,
    ((((withIdx n T).map (fun p => RankItem.mk p.1 (sc q p.2) p.2)).zip
        ((withIdx n T).map (fun p => RankItem.mk p.1 (sc "date" p.2) p.2))).filter
        (fun p => decide (thr < p.1.score) || decide (c < p.2.score))).map
        (fun p => (lookupEntry t2f p.1.text).getD "")
      = (T.filter (fun t => decide (thr < sc q t ∨ c < sc "date" t))).map
          (fun t => (lookupEntry t2f t).getD "") := by
  induction T with
  | nil => intro n; rfl
  | cons a as ih =>
    intro n
    by_cases h1 : thr < sc q a <;> by_cases h2 : c < sc "date" a <;>
      simp [withIdx, List.zip_cons_cons, List.filter_cons, h1, h2, ih (n + 1)]

/-- The relevance filter keeps exactly the truncated chunks whose query
score strictly exceeds the 90th percentile of all query scores or whose
date score exceeds 0.1, each mapped to a full chunk through the truncation
dict. -/
theorem relevanceFilter_eq_kept (sc : String → String → ℚ) (q : String) (sections : List String) :
    relevanceFilter sc q sections =
      (keptTruncations sc q sections).map
        (fun t => (lookupEntry (truncatedToFull sections) t).getD "") := by
  rw [relevanceFilter, keptTruncations]
  simp only [rankAll_scores]
  rw [show rankAll sc q (sections.map truncate200)
        = (withIdx 0 (sections.map truncate200)).map
            (fun p => RankItem.mk p.1 (sc q p.2) p.2) from rfl,
      show rankAll sc "date" (sections.map truncate200)
        = (withIdx 0 (sections.map truncate200)).map
            (fun p => RankItem.mk p.1 (sc "date" p.2) p.2) from rfl]
  rw [filter_zip_rank_aux]

/-- Every successful pipeline result carries the processed markup verbatim,
an empty error message, and the success flag (lines 757-773). -/
theorem aprocess_ok_shape (env : PipelineEnv) (url html : String) (ec : Option String)
    (cfg : CrawlerRunConfig) (ss pd : Option String) (q : Option String) (r : CrawlResult)
    (h : aprocess_html env url html ec cfg ss pd q = .ok r) :
    r.html = html ∧ r.error_message = "" ∧ r.success = true := by
  unfold aprocess_html at h
  repeat' split at h
  · simp at h
  · simp at h
  · rename_i result heq
    simp only [] at h
    cases hE : extractedContentOf env url html ec cfg
        (sanitize_input_encode (markdownResultOf env cfg (sanitize_input_encode result.cleaned_html) url).raw_markdown)
        (markdownResultOf env cfg (sanitize_input_encode result.cleaned_html) url) q with
    | error e => rw [hE] at h; simp [Except.map] at h
    | ok x =>
      rw [hE] at h
      simp only [Except.map, Except.ok.injEq] at h
      subst h
      exact ⟨rfl, rfl, rfl⟩

/-- The handler's diagnostic message is never empty. -/
theorem handlerMessage_ne (e : String) : handlerMessage e ≠ "" := by
  intro h
  have hlen : (handlerMessage e).length = 0 := by rw [h]; rfl
  rw [handlerMessage, String.length_append] at hlen
  have : ("Unexpected error in _crawl_web: Error: " : String).length = 39 := rfl
  omega

/-- A provided config whose cache mode is set passes through the
normalization of lines 330-381 unchanged. -/
theorem normalizeConfig_of_some (cfg : CrawlerRunConfig) (legacy : LegacyParams)
    (cm : Option CacheMode) (m : CacheMode) (h : cfg.cache_mode = some m) :
    normalizeConfig (some cfg) legacy cm = cfg := by
  unfold normalizeConfig
  simp [h]

/-- With extraction configured, a non-noop strategy, a query, a non-empty
chunk list, and a filter that keeps nothing, the extraction block yields
the empty string. -/
theorem extractedContentOf_zero (env : PipelineEnv) (url html : String) (cfg : CrawlerRunConfig)
    (es : ExtractionStrategy) (cs : ChunkingStrategy) (markdown : String)
    (markdown_result : MarkdownGenerationResult) (q : String)
    (hes : cfg.extraction_strategy = some es) (hcs : cfg.chunking_strategy = some cs)
    (hnoop : es.is_noop = false)
    (hne : extractionSections cs (effectiveContentFormat es.input_format markdown_result.fit_markdown)
        markdown html markdown_result.raw_markdown ≠ [])
    (hfil : relevanceFilter env.rerank_score q
        (extractionSections cs (effectiveContentFormat es.input_format markdown_result.fit_markdown)
          markdown html markdown_result.raw_markdown) = []) :
    extractedContentOf env url html none cfg markdown markdown_result (some q) = .ok (some "") := by
  unfold extractedContentOf
  rw [hes, hcs]
  simp only [hnoop, Bool.false_eq_true, if_false]
  rw [if_neg hne]
  simp only [hfil]
  rw [if_pos trivial]

/-- Anatomy of a successful fresh-path outcome: the fetch and the pipeline
succeeded, the result's content fields come from the pipeline result, and
its success flag is the non-emptiness of the fetched markup (line 488). -/
theorem freshPath_shape (env : ArunEnv) (url : String) (cfg : CrawlerRunConfig) (cc : CacheContext)
    (ec : Option String) (flag : Bool) (q : Option String) (out : ArunOutcome)
    (h : freshPath env url cfg cc ec flag q = .ok out) :
    ∃ resp cr0, env.fetch url = .ok resp ∧
      aprocess_html env.pipeline url (sanitize_input_encode resp.html) ec cfg resp.screenshot resp.pdf_data q = .ok cr0 ∧
      out.result.html = cr0.html ∧ out.result.error_message = cr0.error_message ∧
      out.result.success = decide (sanitize_input_encode resp.html ≠ "") ∧
      out.result.cleaned_html = cr0.cleaned_html ∧ out.result.markdown = cr0.markdown ∧
      out.result.media = cr0.media ∧ out.result.links = cr0.links ∧
      out.result.extracted_content = cr0.extracted_content := by
  unfold freshPath at h
  split at h
  · exact Except.noConfusion h
  · rename_i resp heqf
    split at h
    all_goals simp only [] at h
    all_goals split at h
    all_goals (first
      | exact Except.noConfusion h
      | (rename_i cr0 heqa
         refine ⟨resp, cr0, heqf, heqa, ?_⟩
         simp only [Except.ok.injEq] at h
         subst h
         exact ⟨rfl, rfl, rfl, rfl, rfl, rfl, rfl, rfl⟩))

/-- A fresh-path outcome whose success flag is false has empty markup and an
empty error message (the fetch returned no markup without raising). -/
theorem freshPath_failure_fields (env : ArunEnv) (url : String) (cfg : CrawlerRunConfig)
    (cc : CacheContext) (ec : Option String) (flag : Bool) (q : Option String) (o : ArunOutcome)
    (h : freshPath env url cfg cc ec flag q = .ok o)
    (hs : o.result.success = false) :
    o.result.html = "" ∧ o.result.error_message = "" := by
  obtain ⟨resp, cr0, heqf, heqa, hh, hm, hsv, _, _, _, _, _⟩ :=
    freshPath_shape env url cfg cc ec flag q o h
  obtain ⟨hah, ham, _⟩ := aprocess_ok_shape _ _ _ _ _ _ _ _ _ heqa
  rw [hsv] at hs
  have hemp : sanitize_input_encode resp.html = "" := by
    by_contra hne
    simp [hne] at hs
  exact ⟨by rw [hh, hah, hemp], by rw [hm, ham]⟩

/-- When the oracle's date score beats the 0.1 threshold for every chunk,
the filter keeps every truncated chunk. -/
theorem keptTruncations_all (sc : String → String → ℚ) (q : String) (sections : List String)
    (h : ∀ t, (1 : ℚ)/10 < sc "date" t) :
    keptTruncations sc q sections = sections.map truncate200 := by
  rw [keptTruncations]
  apply List.filter_eq_self.mpr
  intro a _
  exact decide_eq_true (Or.inr (h a))

/-- C1: an empty (non-non-empty-string) url makes `arun` raise the
validation error regardless of the environment, before any work; for any
non-empty url and any configuration and environment, `arun` never raises —
it always returns a result; a failing fetch stage (no cached entry in the
way) is caught and returned as a success=false CrawlResult carrying a
non-empty diagnostic; and ANY failure raised by the content pipeline on
the fresh path — the transform (scraping) stage and the
chunking/filtering/extraction stages all surface as an `aprocess_html`
error — is likewise caught and returned as a success=false CrawlResult
carrying a non-empty diagnostic wrapping the stage's message. -/
theorem arun_no_throw_contract (env : ArunEnv) (url : String) (config0 : Option CrawlerRunConfig)
    (legacy : LegacyParams) (cm : Option CacheMode) (q : Option String) :
    (url = "" → arun env url config0 legacy cm q = .error invalidUrlMsg) ∧
    (url ≠ "" → ∃ out, arun env url config0 legacy cm q = .ok out) ∧
    (url ≠ "" → env.cache_get url = .ok none → ∀ e, env.fetch url = .error e →
      arun env url config0 legacy cm q =
        .ok { result := handlerResult url (handlerMessage e), written := none, fetched := false } ∧
      (handlerResult url (handlerMessage e)).success = false ∧
      handlerMessage e ≠ "") ∧
    (url ≠ "" → env.cache_get url = .ok none → ∀ resp e, env.fetch url = .ok resp →
      aprocess_html env.pipeline url (sanitize_input_encode resp.html) none
        (normalizeConfig config0 legacy cm) resp.screenshot resp.pdf_data q = .error e →
      arun env url config0 legacy cm q =
        .ok { result := handlerResult url (handlerMessage e), written := none, fetched := false } ∧
      (handlerResult url (handlerMessage e)).success = false ∧
      handlerMessage e ≠ "") := by
  have hA : ∀ (cfg : CrawlerRunConfig) (cc : CacheContext),
      env.cache_get url = .ok none → ∀ e, env.fetch url = .error e →
      arunAttempt env url cfg cc legacy q = .error e := by
    intro cfg cc hcache e hfetch
    unfold arunAttempt freshPath
    cases hsr : cc.should_read <;> simp [hsr, hcache, hfetch]
  have hB : ∀ (cc : CacheContext), env.cache_get url = .ok none →
      ∀ resp e, env.fetch url = .ok resp →
      aprocess_html env.pipeline url (sanitize_input_encode resp.html) none
        (normalizeConfig config0 legacy cm) resp.screenshot resp.pdf_data q = .error e →
      arunAttempt env url (normalizeConfig config0 legacy cm) cc legacy q = .error e := by
    intro cc hcache resp e hfetch hap
    unfold arunAttempt freshPath
    cases hsr : cc.should_read <;> simp [hsr, hcache, hfetch, hap]
  refine ⟨?_, ?_, ?_, ?_⟩
  · intro h; subst h; rfl
  · intro h
    unfold arun
    rw [if_neg h]
    simp only []
    cases h2 : arunAttempt env url (normalizeConfig config0 legacy cm)
        { url := url, cache_mode := (normalizeConfig config0 legacy cm).cache_mode.getD CacheMode.ENABLED,
          always_bypass := env.always_bypass_cache } legacy q with
    | ok o => exact ⟨o, rfl⟩
    | error e => exact ⟨_, rfl⟩
  · intro h hcache e hfetch
    unfold arun
    rw [if_neg h]
    simp only []
    rw [hA _ _ hcache e hfetch]
    exact ⟨rfl, rfl, handlerMessage_ne e⟩
  · intro h hcache resp e hfetch hap
    unfold arun
    rw [if_neg h]
    simp only []
    rw [hB _ hcache resp e hfetch hap]
    exact ⟨rfl, rfl, handlerMessage_ne e⟩

/-- Witness for C1 at concrete environments exercising every stage of the
claim: the empty url is rejected with the validation error; a raising
fetch, a raising transform (scraping) stage, and a raising extraction
stage each yield the handler's success=false result with its non-empty
diagnostic. -/
theorem arun_no_throw_contract_witness :
    arun envC1 "" none {} none none = .error invalidUrlMsg ∧
    arun envC1 "https://a" none {} none none =
      .ok { result := handlerResult "https://a" (handlerMessage "netfail"), written := none, fetched := false } ∧
    arun envC1t "https://a" none {} none none =
      .ok { result := handlerResult "https://a"
              (handlerMessage "Process HTML, Failed to extract content from the website: https://a, error: boom"),
            written := none, fetched := false } ∧
    arun envC1e "https://a" (some cfgC1e) {} none none =
      .ok { result := handlerResult "https://a" (handlerMessage "exboom"), written := none, fetched := false } ∧
    handlerMessage "netfail" ≠ "" := by
  refine ⟨(arun_no_throw_contract envC1 "" none {} none none).1 rfl, ?_, ?_, ?_, ?_⟩
  · exact ((arun_no_throw_contract envC1 "https://a" none {} none none).2.2.1
      (by decide) rfl "netfail" rfl).1
  · exact ((arun_no_throw_contract envC1t "https://a" none {} none none).2.2.2
      (by decide) rfl { html := "<p>x</p>" }
      "Process HTML, Failed to extract content from the website: https://a, error: boom"
      rfl rfl).1
  · exact ((arun_no_throw_contract envC1e "https://a" (some cfgC1e) {} none none).2.2.2
      (by decide) rfl { html := "<p>x</p>" } "exboom" rfl rfl).1
  · exact ((arun_no_throw_contract envC1 "https://a" none {} none none).2.2.1
      (by decide) rfl "netfail" rfl).2.2

/-- C2: the cache-invalidation check of line 413 tests the legacy keyword
parameters `screenshot`/`pdf` instead of the cached data, contradicting the
comment above it ("If screenshot is requested but its not in cache, then
set cache_result to None").  Evaluating the embedded `arun` at the failing
input — the legacy call `arun(url, screenshot=True)` with a stored entry
that has markup but no screenshot bytes — shows the entry is served as the
crawl result (no fetch), with no screenshot, while the effective config
demands one. -/
theorem arun_legacy_screenshot_check_eval :
    (arun envC2 "https://a" none legacyC2 none none).toOption.map
        (fun o => (o.fetched, o.result.screenshot, o.result.html, o.result.success))
      = some (false, none, "<p>x</p>", true) ∧
    (normalizeConfig none legacyC2 none).screenshot = true ∧
    cachedC2.screenshot = none := by
  exact ⟨rfl, rfl, rfl⟩

/-- Counterexample to C3 as stated: with caching ENABLED (should_write
true) and a stored entry lacking markup, the fresh fetch happens
(fetched = true, the result carries the newly fetched markup) but the
freshly assembled result is NOT written back (written = none), because the
write-back guard of line 506 tests whether a cached entry existed at all,
not whether it was a valid hit. -/
theorem arun_stale_cache_no_writeback_cx :
    (arun envC3 "https://a" (some cfgC3) {} none none).toOption.map
        (fun o => (o.fetched, o.written, o.result.html))
      = some (true, none, "<p>hi</p>") ∧
    (CacheContext.mk "https://a" CacheMode.ENABLED false).should_write = true ∧
    cachedC3.html = "" := by
  exact ⟨rfl, rfl, rfl⟩

/-- C3 as amended: a stored entry lacking markup (and not nulled by the
screenshot/PDF check) forces a fresh fetch, but the freshly assembled
result is NOT written back — the stored entry's mere existence suppresses
the write; and a result served from a valid cache hit is never
re-persisted. -/
theorem arun_write_back_policy :
    (∀ (env : ArunEnv) (url : String) (cfg : CrawlerRunConfig) (legacy : LegacyParams)
       (q : Option String) (m : CacheMode) (c : CrawlResult) (resp : AsyncCrawlResponse)
       (pres : CrawlResult),
       url ≠ "" →
       cfg.cache_mode = some m →
       env.cache_get url = .ok (some c) →
       c.html = "" →
       (CacheContext.mk url m env.always_bypass_cache).should_read = true →
       (cfg.screenshot && !legacy.screenshot) = false →
       (cfg.pdf && !legacy.pdf) = false →
       env.fetch url = .ok resp →
       aprocess_html env.pipeline url (sanitize_input_encode resp.html) (cachedExtracted c) cfg
         resp.screenshot resp.pdf_data q = .ok pres →
       ∃ out, arun env url (some cfg) legacy none q = .ok out ∧
         out.fetched = true ∧ out.written = none) ∧
    (∀ (env : ArunEnv) (url : String) (cfg : CrawlerRunConfig) (legacy : LegacyParams)
       (q : Option String) (m : CacheMode) (c : CrawlResult),
       url ≠ "" →
       cfg.cache_mode = some m →
       env.cache_get url = .ok (some c) →
       c.html ≠ "" →
       (CacheContext.mk url m env.always_bypass_cache).should_read = true →
       (cfg.screenshot && !legacy.screenshot) = false →
       (cfg.pdf && !legacy.pdf) = false →
       ∃ out, arun env url (some cfg) legacy none q = .ok out ∧
         out.fetched = false ∧ out.written = none ∧ out.result.html = c.html) := by
  constructor
  · intro env url cfg legacy q m c resp pres hurl hcm hcache hch hr hs hp hf hap
    have hnc := normalizeConfig_of_some cfg legacy none m hcm
    have hap2 := hap
    simp only [sanitize_input_encode] at hap2
    unfold arun arunAttempt freshPath
    rw [if_neg hurl]
    simp only [hnc, hcm, Option.getD_some]
    rw [hr]
    simp only [if_true, hcache]
    simp only [sanitize_input_encode, hch, hs, hp]
    simp only [Bool.or_self, Bool.not_true, ne_eq, not_true_eq_false, and_false, if_false]
    simp only [hf]
    simp only [hap2]
    simp only [Bool.not_false, Bool.not_true, Bool.and_false, Bool.false_eq_true, if_false]
    exact ⟨_, rfl, rfl, rfl⟩
  · intro env url cfg legacy q m c hurl hcm hcache hch hr hs hp
    have hnc := normalizeConfig_of_some cfg legacy none m hcm
    unfold arun arunAttempt
    rw [if_neg hurl]
    simp only [hnc, hcm, Option.getD_some]
    rw [hr]
    simp only [if_true, hcache]
    simp only [sanitize_input_encode, hs, hp]
    simp only [Bool.or_self, ne_eq]
    rw [if_pos ⟨trivial, hch⟩]
    exact ⟨_, rfl, rfl, rfl, rfl⟩

/-- Witness for the amended C3 at the concrete scenario: both clauses
applied — the markup-less stored entry leads to a fetched, un-persisted
outcome; and serving from an entry with markup also writes nothing. -/
theorem arun_write_back_policy_witness :
    (∃ out, arun envC3 "https://a" (some cfgC3) {} none none = .ok out ∧
      out.fetched = true ∧ out.written = none) ∧
    (∃ out, arun envC2 "https://a" (some cfgC3) {} none none = .ok out ∧
      out.fetched = false ∧ out.written = none ∧ out.result.html = cachedC2.html) := by
  constructor
  · exact (arun_write_back_policy).1 envC3 "https://a" cfgC3 {} none CacheMode.ENABLED
      cachedC3 respC3 presC3 (by decide) rfl rfl rfl rfl rfl rfl rfl rfl
  · exact (arun_write_back_policy).2 envC2 "https://a" cfgC3 {} none CacheMode.ENABLED
      cachedC2 (by decide) rfl rfl (by decide) rfl rfl rfl

/-- C4: with a relevance query, the filter truncates each chunk to its
first 200 characters, scores the truncated chunks against the query and
against the literal term "date", and keeps a chunk iff its query score
strictly exceeds the 90th percentile of all query scores or its date score
exceeds 0.1 (each survivor mapped back to full text through the truncation
dict); and when zero chunks survive, the pipeline's extracted content is
the empty string and the result does not depend on the extraction
strategy's run function — the strategy is not invoked. -/
theorem relevance_filter_contract :
    (∀ (sc : String → String → ℚ) (q : String) (sections : List String),
      relevanceFilter sc q sections =
        (keptTruncations sc q sections).map
          (fun t => (lookupEntry (truncatedToFull sections) t).getD "")) ∧
    (∀ (env : PipelineEnv) (url html : String) (cfg : CrawlerRunConfig) (ss pd : Option String)
       (q : String) (es : ExtractionStrategy) (cs : ChunkingStrategy) (sr : ScrapResult),
       cfg.extraction_strategy = some es →
       cfg.chunking_strategy = some cs →
       es.is_noop = false →
       env.scrap url html = .ok (some sr) →
       pipelineSections env cfg url html es cs sr ≠ [] →
       relevanceFilter env.rerank_score q (pipelineSections env cfg url html es cs sr) = [] →
       (∃ r, aprocess_html env url html none cfg ss pd (some q) = .ok r ∧
         r.extracted_content = some "") ∧
       (∀ run2, aprocess_html env url html none
           { cfg with extraction_strategy := some { es with run := run2 } } ss pd (some q)
         = aprocess_html env url html none cfg ss pd (some q))) := by
  refine ⟨relevanceFilter_eq_kept, ?_⟩
  intro env url html cfg ss pd q es cs sr hes hcs hnoop hscrap hne hfil
  simp only [pipelineSections] at hne hfil
  have hzero := extractedContentOf_zero env url html cfg es cs
    (sanitize_input_encode (markdownResultOf env cfg (sanitize_input_encode sr.cleaned_html) url).raw_markdown)
    (markdownResultOf env cfg (sanitize_input_encode sr.cleaned_html) url) q hes hcs hnoop hne hfil
  constructor
  · refine ⟨assembleResult env cfg url html sr
        (markdownResultOf env cfg (sanitize_input_encode sr.cleaned_html) url) ss pd (some ""), ?_, rfl⟩
    unfold aprocess_html
    rw [hscrap]
    simp only [hzero]
    rfl
  · intro run2
    have hes2 : ({ cfg with extraction_strategy := some { es with run := run2 } } : CrawlerRunConfig).extraction_strategy
        = some { es with run := run2 } := rfl
    have hcs2 : ({ cfg with extraction_strategy := some { es with run := run2 } } : CrawlerRunConfig).chunking_strategy
        = some cs := hcs
    have hzero2 := extractedContentOf_zero env url html
      { cfg with extraction_strategy := some { es with run := run2 } } { es with run := run2 } cs
      (sanitize_input_encode (markdownResultOf env cfg (sanitize_input_encode sr.cleaned_html) url).raw_markdown)
      (markdownResultOf env cfg (sanitize_input_encode sr.cleaned_html) url) q hes2 hcs2 hnoop hne hfil
    unfold aprocess_html
    rw [hscrap]
    simp only []
    rw [show markdownResultOf env { cfg with extraction_strategy := some { es with run := run2 } }
          (sanitize_input_encode sr.cleaned_html) url
        = markdownResultOf env cfg (sanitize_input_encode sr.cleaned_html) url from rfl]
    rw [hzero2, hzero]
    rfl

/-- Witness for C4 at a concrete scenario: one chunk scoring 1/2 against
the query (the 90th percentile of the scores is then 1/2, not strictly
exceeded) and 0 against "date"; zero chunks survive, the extracted content
is the empty string, and the would-fail run function was never invoked. -/
theorem relevance_filter_contract_witness :
    (∃ r, aprocess_html pipeC4 "u" "<h>" none cfgC4 none none (some "topic") = .ok r ∧
      r.extracted_content = some "") ∧
    relevanceFilter scC4 "topic" ["alpha"] = [] := by
  have hfil : relevanceFilter scC4 "topic" ["alpha"] = [] := by
    norm_num [relevanceFilter, rankAll, withIdx, percentile90, sortAsc, insertSorted, scC4,
      List.filter, truncatedToFull, List.foldr]
  have hsec : pipelineSections pipeC4 cfgC4 "u" "<h>" esC4 csC4 {} = ["alpha"] := rfl
  have h := (relevance_filter_contract).2 pipeC4 "u" "<h>" cfgC4 none none "topic" esC4 csC4 {}
    rfl rfl rfl rfl (by rw [hsec]; exact fun hcon => List.noConfusion hcon)
    (by rw [hsec]; exact hfil)
  exact ⟨h.1, hfil⟩

/-- C5: the content-selection dict of lines 669-673 maps the
"fit_markdown" input format to `markdown_result.raw_markdown`, not to the
fit markdown, contradicting the adjacent fallback (lines 661-667), which
only exists to substitute raw markdown when fit markdown is UNAVAILABLE.
Evaluating the embedded pipeline at the failing input — a strategy
demanding fit_markdown while the generator produced distinct raw "RAWMD"
and available fit "FITMD" — shows the extraction strategy receives
"RAWMD".  (The html-input identity-chunking half of the claim is encoded
in `extractionSections` and exercised implicitly.) -/
theorem fit_markdown_receives_raw_markdown_eval :
    (aprocess_html pipeC5 "u" "<h>" none cfgC5 none none none).toOption.map
        (fun r => r.extracted_content) = some (some "RAWMD") ∧
    (pipeC5.default_markdown "C" "u").fit_markdown = "FITMD" ∧
    effectiveContentFormat "fit_markdown" "FITMD" = "fit_markdown" ∧
    selectContent "fit_markdown" "MD" "<h>" "RAW" = "RAW" ∧
    extractionSections ⟨fun s => [s]⟩ "html" "MD" "<h>" "RAW" = ["<h>"] := by
  exact ⟨rfl, rfl, rfl, rfl, rfl⟩

/-- C6: the batch result of `arun_many` has the same length as the input
list, its i-th element is exactly the outcome of the i-th input source
regardless of every other source (so completion order and other sources'
faults are irrelevant to position and content), and a source whose task
raises is represented at its position as a stringified failure marker. -/
theorem arun_many_order_isolation (env : ArunEnv) (urls : List String) (q : Option String) :
    (arun_many env urls q).length = urls.length ∧
    (∀ i : Nat, (arun_many env urls q)[i]? = (urls[i]?).map (batchItemFor env q)) ∧
    (∀ u e, arun env u none {} none q = .error e → batchItemFor env q u = .marker e) := by
  refine ⟨by simp [arun_many], ?_, ?_⟩
  · intro i
    simp [arun_many]
  · intro u e he
    unfold batchItemFor
    rw [he]

/-- Witness for C6 at a concrete batch of three sources whose middle
identifier is invalid (its task raises the validation error): the batch
has three items and the middle item is the failure marker, while the
sound sources produce results at their positions. -/
theorem arun_many_order_isolation_witness :
    (arun_many env6 urls6 none).length = urls6.length ∧
    (arun_many env6 urls6 none)[1]? = some (BatchItem.marker invalidUrlMsg) ∧
    (arun_many env6 urls6 none)[0]? = some (batchItemFor env6 none "https://a") ∧
    (arun_many env6 urls6 none)[2]? = some (batchItemFor env6 none "https://b") := by
  have h := arun_many_order_isolation env6 urls6 none
  refine ⟨h.1, ?_, ?_, ?_⟩
  · rw [h.2.1 1, show urls6[1]? = some "" from rfl,
      show Option.map (batchItemFor env6 none) (some "") = some (batchItemFor env6 none "") from rfl,
      h.2.2 "" invalidUrlMsg rfl]
  · rw [h.2.1 0, show urls6[0]? = some "https://a" from rfl]
    rfl
  · rw [h.2.1 2, show urls6[2]? = some "https://b" from rfl]
    rfl

/-- Counterexample to C7 as stated: three same-origin tasks of one batch
start within 2/100 of each other with mean_delay 1 and zero jitter
(max_range 0).  The first dispatches at 0; the second and third both read
the first task's stale timestamp (the second's write only lands after its
own sleep, and records its pre-sleep read time 1/100, not its dispatch
time 101/100), so they dispatch at 101/100 and 102/100 — only 1/100 <
mean_delay apart.  The ledger writes record the capture times, never the
dispatch times. -/
theorem rate_limiter_dispatch_gap_cx :
    runRateLimiter 1 cxTasks = [0, 101/100, 51/50] ∧
    (51 : ℚ)/50 - 101/100 < 1 ∧
    (runRateLimiterState 1 cxTasks).1.map (fun e => e.value) = [0, 1/100, 1/50] ∧
    (1 : ℚ)/100 ≠ 101/100 := by
  refine ⟨?_, by norm_num, ?_, by norm_num⟩
  · norm_num [runRateLimiter, runRateLimiterState, rlStep, visibleValue, rateDelay, cxTasks,
      List.filter, List.foldl]
  · norm_num [runRateLimiterState, rlStep, visibleValue, rateDelay, cxTasks, List.filter,
      List.foldl]

/-- C7 as amended: a worker that reads a same-origin ledger timestamp
younger than mean_delay sleeps mean_delay plus a nonnegative jitter —
jitter only adds delay — so its own dispatch is at least mean_delay after
its read; but the ledger write always records the task's read (start)
time, not its dispatch time, and lands only after the sleep, without any
mutual exclusion, so racing same-origin workers do not serialize and two
dispatches can be closer than mean_delay (the counterexample above). -/
theorem rate_limiter_delay_policy :
    (∀ (last : Option ℚ) (t mean j tl : ℚ), 0 ≤ j → last = some tl → t - tl < mean →
      rateDelay last t mean j = mean + j ∧ t + mean ≤ t + rateDelay last t mean j) ∧
    (∀ (mean : ℚ) (tasks : List RLTaskSpec),
      (runRateLimiterState mean tasks).1.map (fun e => e.value) = tasks.map (fun tk => tk.start)) := by
  constructor
  · intro last t mean j tl hj hl hlt
    subst hl
    refine ⟨by simp [rateDelay, hlt], ?_⟩
    simp only [rateDelay, hlt, if_true]
    linarith
  · intro mean tasks
    suffices hgen : ∀ (ts : List RLTaskSpec) (st : List RLEvent × List ℚ),
        ((ts.foldl (rlStep mean) st).1).map (fun e => e.value)
          = st.1.map (fun e => e.value) ++ ts.map (fun tk => tk.start) by
      simpa [runRateLimiterState] using hgen tasks ([], [])
    intro ts
    induction ts with
    | nil => intro st; simp
    | cons tk tks ih =>
      intro st
      rw [List.foldl_cons, ih]
      simp [rlStep]

/-- Witness for the amended C7: a task reading a timestamp 1/100 old with
mean_delay 1 and zero jitter is delayed exactly 1, at least mean_delay
after its read; and the trace of the concrete three-task batch records the
start times in the ledger. -/
theorem rate_limiter_delay_policy_witness :
    (rateDelay (some 0) (1/100) 1 0 = 1 + 0 ∧
      (1 : ℚ)/100 + 1 ≤ 1/100 + rateDelay (some 0) (1/100) 1 0) ∧
    (runRateLimiterState 1 cxTasks).1.map (fun e => e.value) = cxTasks.map (fun tk => tk.start) := by
  exact ⟨(rate_limiter_delay_policy).1 (some 0) (1/100) 1 0 0 (by norm_num) rfl (by norm_num),
    (rate_limiter_delay_policy).2 1 cxTasks⟩

/-- Counterexample to C8 as stated: a fetch that succeeds but returns empty
markup (cache bypassed) produces a returned result with success = false and
an EMPTY error message — and the empty-markup "failure" result is even
written back to the cache store. -/
theorem arun_empty_html_failure_cx :
    (arun envC8 "https://a" (some cfgC8) {} none none).toOption.map
        (fun o => (o.result.success, o.result.error_message, o.result.html))
      = some (false, "", "") := by
  exact rfl

/-- C8 as amended: every success=false result returned by `arun` carries
empty raw markup; and when its error message is non-empty (the
exception-handler path), all the other content fields (cleaned markup,
markdown, media, links, extracted content) are empty too.  A fetch
returning empty markup without raising, however, yields success=false with
an empty error message, so the non-empty-message half of the original
claim fails. -/
theorem arun_failure_result_shape :
    ∀ (env : ArunEnv) (url : String) (config0 : Option CrawlerRunConfig) (legacy : LegacyParams)
      (cm : Option CacheMode) (q : Option String) (out : ArunOutcome),
      arun env url config0 legacy cm q = .ok out →
      out.result.success = false →
      out.result.html = "" ∧
      (out.result.error_message ≠ "" →
        out.result.cleaned_html = "" ∧ out.result.markdown = "" ∧ out.result.media = [] ∧
        out.result.links = [] ∧ out.result.extracted_content = none) := by
  intro env url config0 legacy cm q out h hs
  unfold arun at h
  split at h
  · exact Except.noConfusion h
  · simp only [] at h
    split at h
    · rename_i o heq
      simp only [Except.ok.injEq] at h
      subst h
      unfold arunAttempt at heq
      split at heq
      · exact Except.noConfusion heq
      · have hf := freshPath_failure_fields _ _ _ _ _ _ _ _ heq hs
        exact ⟨hf.1, fun hm => absurd hf.2 hm⟩
      · rename_i cr heqc
        simp only [] at heq
        split at heq
        · rename_i hcond
          simp only [Except.ok.injEq] at heq
          subst heq
          exfalso
          simp only [] at hs
          simp at hs
          exact hcond.2 hs
        · have hf := freshPath_failure_fields _ _ _ _ _ _ _ _ heq hs
          exact ⟨hf.1, fun hm => absurd hf.2 hm⟩
    · rename_i e heq
      simp only [Except.ok.injEq] at h
      subst h
      exact ⟨rfl, fun _ => ⟨rfl, rfl, rfl, rfl, rfl⟩⟩

/-- Witness for the amended C8 at the concrete empty-markup scenario: the
returned failure result has empty markup (and, its message being empty,
the message clause is vacuous). -/
theorem arun_failure_result_shape_witness :
    outC8.result.success = false ∧
    outC8.result.html = "" ∧
    (outC8.result.error_message ≠ "" →
      outC8.result.cleaned_html = "" ∧ outC8.result.markdown = "" ∧ outC8.result.media = [] ∧
      outC8.result.links = [] ∧ outC8.result.extracted_content = none) := by
  have h := arun_failure_result_shape envC8 "https://a" (some cfgC8) {} none none outC8 rfl rfl
  exact ⟨rfl, h.1, h.2⟩

/-- Counterexample to C9 as stated: `_domain_last_hit` is declared on the
class body (line 130) and `__init__` never assigns a per-instance ledger,
so the ledger is shared class-level state.  After a worker of one instance
records a hit, a freshly constructed, distinct second instance observes
the non-empty ledger — it does not start empty at construction and is
shared across instances. -/
theorem class_ledger_shared_cx :
    observedLedger (recordHit initialClassState (initCrawler false false) "example.com" 5)
        (initCrawler true true) = [("example.com", 5)] ∧
    initCrawler true true ≠ initCrawler false false := by
  exact ⟨rfl, by decide⟩

/-- C9 as amended: the ledger keeps at most one entry per distinct origin
(key uniqueness is preserved by every update), entries are only
added/updated and never removed; but the ledger is class-level state
observed identically by every instance, empty once at class-definition
time rather than per construction. -/
theorem ledger_scope_invariants :
    (∀ (cs : CrawlerClassState) (inst : AsyncWebCrawlerInst) (d : String) (t : ℚ),
      ((observedLedger cs inst).map Prod.fst).Nodup →
      ((observedLedger (recordHit cs inst d t) inst).map Prod.fst).Nodup) ∧
    (∀ (cs : CrawlerClassState) (inst : AsyncWebCrawlerInst) (d : String) (t : ℚ) (d' : String) (w : ℚ),
      lookupEntry (observedLedger cs inst) d' = some w →
      ∃ w', lookupEntry (observedLedger (recordHit cs inst d t) inst) d' = some w') ∧
    (∀ (cs : CrawlerClassState) (i1 i2 : AsyncWebCrawlerInst),
      observedLedger cs i1 = observedLedger cs i2) ∧
    initialClassState.domain_last_hit = [] := by
  refine ⟨?_, ?_, fun _ _ _ => rfl, rfl⟩
  · intro cs inst d t h
    exact keys_setEntry_nodup _ _ _ h
  · intro cs inst d t d' w hw
    by_cases hd : d' = d
    · subst hd
      exact ⟨t, lookupEntry_setEntry_self _ _ _⟩
    · refine ⟨w, ?_⟩
      show lookupEntry (setEntry cs.domain_last_hit d t) d' = some w
      rw [lookupEntry_setEntry_ne _ _ _ _ hd]
      exact hw

/-- Witness for the amended C9 at concrete inputs: updating a fresh ledger
keeps its keys unique, an existing origin entry survives an update of
another origin, and two distinct instances observe the same ledger. -/
theorem ledger_scope_invariants_witness :
    ((observedLedger (recordHit initialClassState (initCrawler false false) "example.com" 5)
        (initCrawler false false)).map Prod.fst).Nodup ∧
    (∃ w', lookupEntry (observedLedger
        (recordHit ⟨[("example.com", 5)]⟩ (initCrawler false false) "other.org" 7)
        (initCrawler false false)) "example.com" = some w') ∧
    observedLedger ⟨[("example.com", 5)]⟩ (initCrawler true true)
      = observedLedger ⟨[("example.com", 5)]⟩ (initCrawler false false) := by
  refine ⟨(ledger_scope_invariants).1 initialClassState (initCrawler false false) "example.com" 5
      (by simp [observedLedger, initialClassState]), ?_, ?_⟩
  · exact (ledger_scope_invariants).2.1 ⟨[("example.com", 5)]⟩ (initCrawler false false)
      "other.org" 7 "example.com" 5 (by decide)
  · exact (ledger_scope_invariants).2.2.1 ⟨[("example.com", 5)]⟩ (initCrawler true true)
      (initCrawler false false)

set_option maxRecDepth 8000 in
/-- C10: the truncation dict built at line 727 maps every key to the LAST
section of the chunk sequence whose first 200 characters equal it (later
dict entries overwrite earlier ones); concretely, for two distinct chunks
sharing a 200-character prefix whose scores pass the filter, the full text
handed onward is the second chunk, twice — including in place of the first
chunk, whose scores passed. -/
theorem truncation_lookup_last_wins :
    (∀ (sections : List String) (k : String),
      lookupEntry (truncatedToFull sections) k =
        sections.reverse.find? (fun s => decide (truncate200 s = k))) ∧
    (sA ≠ sB ∧ truncate200 sA = truncate200 sB ∧
      relevanceFilter scC10 "q" [sA, sB] = [sB, sB]) := by
  have htr : truncate200 sA = truncate200 sB := by decide
  refine ⟨truncatedToFull_lookup, by decide, htr, ?_⟩
  rw [relevanceFilter_eq_kept,
    keptTruncations_all scC10 "q" [sA, sB] (fun t => by norm_num [scC10])]
  simp only [List.map_cons, List.map_nil]
  rw [htr]
  have hlk : (lookupEntry (truncatedToFull [sA, sB]) (truncate200 sB)).getD "" = sB := by
    rw [truncatedToFull_lookup]
    simp [List.find?_cons]
  rw [hlk]
